import Mathlib

/-!
Shallow embedding of the SparkBot command registration and dispatch engine
(`sparkbot/core.py`), covering:

* `SparkBot.command` (registration decorator),
* `SparkBot.execute_command` (resolution and parameter binding),
* `SparkBot.command_dispatcher` (per-request dispatch, error translation,
  single/multi reply emission),
* `SparkBot.my_help` / `SparkBot.my_help_all` (help generation and cache),
* `SparkBot.send_message` (reply sink) and `textwrap.dedent` (used by help).

Python dicts are modelled as insertion-ordered association lists with
update-in-place semantics; Python exceptions are modelled by their positional
argument tuples (all arguments arising in this code path are strings);
handler objects carry an explicit identity (`id`) standing for Python object
identity, a declared parameter-name list standing for `inspect.signature`,
an optional docstring, and a behaviour. String lowering and ordering model
Python `str.lower` / `sorted` on the ASCII range used throughout the code.
-/

namespace SparkBot

/-- Python dict lookup on an insertion-ordered association list (keys are kept
unique by `dictSet`, so first match is the binding). -/
def dictGet {α : Type} : List (String × α) → String → Option α
  | [], _ => none
  | kv :: rest, k => if kv.1 == k then some kv.2 else dictGet rest k

/-- Python `k in d` membership test. -/
def dictHas {α : Type} (d : List (String × α)) (k : String) : Bool :=
  (dictGet d k).isSome

/-- Python dict assignment `d[k] = v`: updates the value in place when the key
exists (keeping its position), otherwise appends the new key at the end. -/
def dictSet {α : Type} : List (String × α) → String → α → List (String × α)
  | [], k, v => [(k, v)]
  | kv :: rest, k, v => if kv.1 == k then (k, v) :: rest else kv :: dictSet rest k v

/-- Python `str.lower` restricted to the ASCII range exercised by the code. -/
def pyLower (s : String) : String :=
  String.mk (s.data.map Char.toLower)

/-- Code-point comparison of character lists, as Python compares strings. -/
def charListLt : List Char → List Char → Bool
  | _, [] => false
  | [], _ :: _ => true
  | a :: as, b :: bs =>
    if a.toNat < b.toNat then true
    else if a == b then charListLt as bs
    else false

/-- Python `<` on strings (code-point lexicographic). -/
def pyStrLt (a b : String) : Bool :=
  charListLt a.data b.data

/-- Stable insertion of a string into an already sorted list, placing it after
equal elements (Python `sorted` is stable). -/
def insertSorted (s : String) : List String → List String
  | [] => [s]
  | t :: ts => if pyStrLt s t then s :: t :: ts else t :: insertSorted s ts

/-- Python `sorted` on a list of strings. -/
def pySorted (l : List String) : List String :=
  l.foldl (fun acc s => insertSorted s acc) []

/-- Space or tab, the character class `[ \t]` of `textwrap.dedent`. -/
def isWsChar (c : Char) : Bool :=
  c == ' ' || c == '\t'

/-- Longest common prefix of two character lists; `textwrap.dedent` reduces the
margin of two indents to exactly this. -/
def lcp : List Char → List Char → List Char
  | a :: as, b :: bs => if a == b then a :: lcp as bs else []
  | _, _ => []

/-- The margin computed by `textwrap.dedent` from the leading-whitespace runs of
the non-blank lines: the longest common prefix of all of them (`[]` when there
are no such lines, the `margin is None` case). -/
def dedentMargin (indents : List (List Char)) : List Char :=
  match indents with
  | [] => []
  | i :: rest => rest.foldl lcp i

/-- `textwrap.dedent`: whitespace-only lines are blanked, the common margin of
the remaining lines is removed from every line that starts with it. -/
def dedent (text : String) : String :=
  let lines := (text.splitOn "\n").map
    (fun l => if l != "" && l.data.all isWsChar then "" else l)
  let indents := (lines.filter (fun l => l.data.any (fun c => !(isWsChar c)))).map
    (fun l => l.data.takeWhile isWsChar)
  let margin := dedentMargin indents
  let outLines :=
    if margin = [] then lines
    else lines.map (fun l =>
      if margin.isPrefixOf l.data then String.mk (l.data.drop margin.length) else l)
  String.intercalate "\n" outLines

/-- A value passed to (or produced for) a handler parameter.
`callbackClosure v` is the `functools.partial(send_message, room_id)` closure
built by `create_callback`, holding the `room_id` argument it was given. -/
inductive BoundVal : Type where
  | pynone
  | tokens (ts : List String)
  | event
  | caller
  | room (r : String)
  | callbackClosure (roomArg : BoundVal)
deriving DecidableEq, Repr

/-- A Python value returned by a handler, as far as `command_dispatcher`
inspects it: a string, a generator of strings, a (non-generator) list, or
`None`. -/
inductive PyVal : Type where
  | str (s : String)
  | gen (elems : List String)
  | list (elems : List String)
  | pynone
deriving DecidableEq, Repr

/-- A Python exception, modelled by its positional-argument tuple (every
argument arising on this code path is a string). -/
abbrev PyExn := List String

/-- The behaviour of a handler: either a pure function of its bound keyword
arguments (user commands), or the bot's built-in `my_help` bound method. -/
inductive HandlerBehavior : Type where
  | pure (f : List (String × BoundVal) → Except PyExn PyVal)
  | builtinHelp

/-- A handler function: `id` stands for Python object identity (used by
`my_help_all` grouping), `params` for `inspect.signature(...).parameters`
(declaration order), `doc` for `__doc__`. -/
structure Handler : Type where
  id : Nat
  params : List String
  doc : Option String
  behavior : HandlerBehavior

/-- The docstring of `SparkBot.my_help` as it appears in the source. -/
def myHelpDoc : String :=
  String.intercalate "\n"
    ["", "        The default help command.", "",
     "        Usage: `help [command]`", "",
     "        Gives the help for [command]. If a command is not given (or is `all`), gives `help-all`.",
     "        "]

/-- The built-in help handler registered at construction: the bound method
`self.my_help`, whose only declared parameter is `commandline`. -/
def helpHandler : Handler :=
  { id := 0, params := ["commandline"], doc := some myHelpDoc,
    behavior := HandlerBehavior.builtinHelp }

/-- The state of a `SparkBot` instance that the dispatch engine touches. -/
structure Bot : Type where
  displayName : String
  hasLogger : Bool
  commands : List (String × Handler)
  fallback : Option Handler
  commandNotFoundMessage : String
  helpAllString : String

/-- `SparkBot.__init__` as far as the dispatch engine is concerned: the
`commands` dict holds only `help`, there is no fallback, the not-found message
has its default text, and the help-all cache is empty. -/
def mkBot (displayName : String) (hasLogger : Bool) : Bot :=
  { displayName := displayName
    hasLogger := hasLogger
    commands := [("help", helpHandler)]
    fallback := none
    commandNotFoundMessage := "Command not found. Maybe try 'help'?"
    helpAllString := "" }

/-- The `command_strings` argument of `SparkBot.command`: a single string, a
list of strings, a function (decorator used without parentheses), or a value
of any other type. -/
inductive RegArg : Type where
  | str (s : String)
  | list (l : List String)
  | func
  | other

/-- An error raised synchronously by `SparkBot.command`. -/
inductive RegError : Type where
  | setupError (msg : String)
  | typeError (msg : String)
deriving DecidableEq, Repr

/-- Python truthiness of the `command_strings` argument (`""` and `[]` are
falsy; functions and other objects arising here are truthy). -/
def regArgFalsy : RegArg → Bool
  | RegArg.str s => s == ""
  | RegArg.list l => l.isEmpty
  | _ => false

/-- The body of the decorator returned by `SparkBot.command`, applied to the
decorated function: checks `self.fallback_command`, then registers the handler
as fallback or under each of its names (`self.commands[command] = new_command`,
last write wins). -/
def regNames (bot : Bot) (names : List String) (fallback : Bool) (h : Handler) :
    Except RegError Bot :=
  if bot.fallback.isSome then
    Except.error (RegError.setupError
      "Attempted to add a fallback command when one already exists.")
  else if fallback then
    Except.ok { bot with fallback := some h }
  else
    Except.ok { bot with commands := names.foldl (fun d n => dictSet d n h) bot.commands }

/-- `SparkBot.command` applied end-to-end: the decorator-factory checks
(empty/function `command_strings`), the `str`/`list` shape check, then
`regNames` for the decorator body. -/
def registerCommand (bot : Bot) (commandStrings : RegArg) (fallback : Bool) (h : Handler) :
    Except RegError Bot :=
  if regArgFalsy commandStrings && !fallback then
    Except.error (RegError.setupError
      "command_strings not given (or empty) in call to SparkBot.command, and this is not a fallback command. At least one command name is required in your decorator.")
  else
    match commandStrings with
    | RegArg.func =>
      Except.error (RegError.setupError
        "command_strings not given in call to SparkBot.command. Did you include the parentheses in your decorator?")
    | RegArg.str s => regNames bot [s] fallback h
    | RegArg.list l => regNames bot l fallback h
    | RegArg.other =>
      Except.error (RegError.typeError "command_strings is not a str or list of str.")

/-- The preamble line of the help-all output. -/
def helpAllPreamble : String :=
  "Type `help [command]` for more specific help about any of these commands:\n - "

/-- The grouping-and-formatting body of `SparkBot.my_help_all` (lines 420-445):
walk the `commands` dict in insertion order, group names bound to the same
handler object (identity via `Handler.id`), comma-join each group sorted, then
sort the groups and join them under the fixed preamble. The fold state is the
pair `(used_command_string_list, temp_command_list)`. -/
def myHelpAllCompute (commands : List (String × Handler)) : String :=
  let step := fun (st : List String × List String) (kv : String × Handler) =>
    if st.1.contains kv.1 then st
    else
      let inner := commands.foldl
        (fun (st2 : List String × List String) kv2 =>
          if kv2.2.id == kv.2.id && kv.1 != kv2.1 then
            (st2.1 ++ [kv2.1], st2.2 ++ [kv2.1])
          else st2)
        (st.1 ++ [kv.1], [kv.1])
      (inner.1, st.2 ++ [String.intercalate ", " (pySorted inner.2)])
  let groups := (commands.foldl step ([], [])).2
  helpAllPreamble ++ String.intercalate "\n - " (pySorted groups)

/-- `SparkBot.my_help_all`: returns the cached `_help_all_string` when it is
non-empty, otherwise computes it, stores it and returns it. The second
component is the bot with its (possibly newly written) cache. -/
def myHelpAll (bot : Bot) : String × Bot :=
  if bot.helpAllString != "" then (bot.helpAllString, bot)
  else
    let s := myHelpAllCompute bot.commands
    (s, { bot with helpAllString := s })

/-- `SparkBot.my_help`: no second token (`IndexError`) or second token lowering
to `"all"` delegates to `my_help_all`; otherwise the named command's docstring
is dedented, with the `KeyError` (unknown command) and `TypeError`
(`__doc__ is None`) paths caught and turned into the two fixed messages. -/
def myHelp (bot : Bot) (commandline : List String) : String × Bot :=
  match commandline.get? 1 with
  | none => myHelpAll bot
  | some t =>
    if pyLower t == "all" then myHelpAll bot
    else
      match dictGet bot.commands t with
      | none =>
        ("I don't have a command with the name \"" ++ t ++ "\".", bot)
      | some h =>
        match h.doc with
        | none => ("There is no help available for `" ++ t ++ "`.", bot)
        | some d => (dedent d, bot)

/-- The outcome of `SparkBot.execute_command`: either the handler's raw return
value or a propagated exception, together with the bot state (the built-in
help may write the help-all cache). -/
structure ExecOut : Type where
  result : Except PyExn PyVal
  bot : Bot

/-- Lines 312-320 of `execute_command`: exact dict lookup, else the fallback
handler if one is set, else `CommandNotFound('No command found',
self.command_not_found_message)`. -/
def resolveCommand (bot : Bot) (commandStr : String) : Except PyExn Handler :=
  match dictGet bot.commands commandStr with
  | some h => Except.ok h
  | none =>
    match bot.fallback with
    | some f => Except.ok f
    | none => Except.error ["No command found", bot.commandNotFoundMessage]

/-- Lines 322-343 of `execute_command`: build `possible_parameters` from the
kwargs plus `callback = None`; when a logger is configured, declared parameters
missing from the bag are additionally bound to `None` (the assignment sits
inside the `if self._logger:` branch); filter down to the declared parameters;
finally, only if `callback` is among the parameters to pass, build the
room-bound closure from `kwargs["room_id"]` (a missing `room_id` is that
lookup's `KeyError`). -/
def bindParams (bot : Bot) (h : Handler) (kwargs : List (String × BoundVal)) :
    Except PyExn (List (String × BoundVal)) :=
  let possible := dictSet kwargs "callback" BoundVal.pynone
  let possible :=
    if bot.hasLogger then
      h.params.foldl (fun acc p => if dictHas acc p then acc else dictSet acc p BoundVal.pynone)
        possible
    else possible
  let toPass := possible.filter (fun kv => h.params.contains kv.1)
  if dictHas toPass "callback" then
    match dictGet kwargs "room_id" with
    | none => Except.error ["room_id"]
    | some rv => Except.ok (dictSet toPass "callback" (BoundVal.callbackClosure rv))
  else
    Except.ok toPass

/-- Invocation of the resolved handler with the bound keyword set
(`command_to_run(**parameters_to_pass)`). A declared parameter missing from
the bound set is Python's `TypeError` for a missing required argument. The
built-in help reads its `commandline` argument and runs `my_help` (possibly
writing the help-all cache); handing it a non-list value is the `TypeError`
its body raises at `commandline[1]`. -/
def runHandler (bot : Bot) (h : Handler) (args : List (String × BoundVal)) : ExecOut :=
  match h.params.find? (fun p => !(dictHas args p)) with
  | some p =>
    { result := Except.error ["missing 1 required positional argument: " ++ p], bot := bot }
  | none =>
    match h.behavior with
    | HandlerBehavior.pure f => { result := f args, bot := bot }
    | HandlerBehavior.builtinHelp =>
      match dictGet args "commandline" with
      | some (BoundVal.tokens ts) =>
        let r := myHelp bot ts
        { result := Except.ok (PyVal.str r.1), bot := r.2 }
      | _ =>
        { result := Except.error ["'NoneType' object is not subscriptable"], bot := bot }

/-- The post-resolution part of `execute_command`: bind, then invoke. -/
def execWithHandler (bot : Bot) (h : Handler) (kwargs : List (String × BoundVal)) : ExecOut :=
  match bindParams bot h kwargs with
  | Except.error e => { result := Except.error e, bot := bot }
  | Except.ok args => runHandler bot h args

/-- `SparkBot.execute_command`: resolve the command string, then bind
parameters and invoke the handler. -/
def executeCommand (bot : Bot) (commandStr : String) (kwargs : List (String × BoundVal)) :
    ExecOut :=
  match resolveCommand bot commandStr with
  | Except.error e => { result := Except.error e, bot := bot }
  | Except.ok h => execWithHandler bot h kwargs

/-- The generic description used when the caught exception has no secondary
positional argument (lines 251-252). -/
def genericErrorMessage : String :=
  "Something happened internally. For more information, contact the bot author."

/-- `error.args[1]` if present, else the generic internal-error description
(the `except IndexError` path of lines 248-252). -/
def errorDescription (e : PyExn) : String :=
  match e.get? 1 with
  | some d => d
  | none => genericErrorMessage

/-- `SparkBot.send_message` for a room given by its ID string: raises
`ValueError` on a blank message, otherwise the message is created in the room.
The successful call is reported as the `(room, markdown)` pair it delivers. -/
def sendMessage (room markdown : String) : Except PyExn (String × String) :=
  if markdown == "" then Except.error ["response must be a non-blank string."]
  else Except.ok (room, markdown)

/-- The observable outcome of one `command_dispatcher` run: the messages
delivered to the reply sink in order, the exception that escaped the dispatcher
(if any), and the bot state. -/
structure DispatchOut : Type where
  sent : List (String × String)
  crash : Option PyExn
  bot : Bot

/-- The `for response in finalresponse:` loop of lines 263-264: each produced
element is sent as its own message as soon as it is produced; a failing
`send_message` aborts the loop and escapes the dispatcher. -/
def sendGenerator (bot : Bot) (room : String) :
    List String → List (String × String) → DispatchOut
  | [], acc => { sent := acc, crash := none, bot := bot }
  | s :: rest, acc =>
    match sendMessage room s with
    | Except.error e => { sent := acc, crash := some e, bot := bot }
    | Except.ok m => sendGenerator bot room rest (acc ++ [m])

/-- Lines 260-264: a `str` result is sent as one message, a generator is
drained element by element, anything else is silently dropped. -/
def sendFinal (bot : Bot) (room : String) (v : PyVal) : DispatchOut :=
  match v with
  | PyVal.str s =>
    match sendMessage room s with
    | Except.error e => { sent := [], crash := some e, bot := bot }
    | Except.ok m => { sent := [m], crash := none, bot := bot }
  | PyVal.gen l => sendGenerator bot room l []
  | PyVal.list _ => { sent := [], crash := none, bot := bot }
  | PyVal.pynone => { sent := [], crash := none, bot := bot }

/-- Lines 229-231: drop the leading token when it equals the bot's display
name. (On an empty token list the Python comparison `commandline[0] == my_name`
itself raises `IndexError`; the caller below reports that crash when the list
here comes back empty, which covers both the empty and the stripped-to-empty
case with the same observable exception.) -/
def stripOwnName (bot : Bot) (tokens : List String) : List String :=
  match tokens with
  | [] => []
  | t :: rest => if t == bot.displayName then rest else tokens

/-- The keyword arguments `command_dispatcher` hands to `execute_command`
(lines 238-241), in that order. -/
def stdKwargs (tokens : List String) (room : String) : List (String × BoundVal) :=
  [("commandline", BoundVal.tokens tokens),
   ("event", BoundVal.event),
   ("caller", BoundVal.caller),
   ("room_id", BoundVal.room room)]

/-- The tail of `command_dispatcher` after `execute_command` returns or raises
(the `except Exception` handler of lines 242-254 and the reply emission of
lines 259-264): a caught exception is first logged when a logger is configured
— the log line reads `error.args[0]`, which itself raises `IndexError` when
the argument tuple is empty — then translated to the `⚠️ Error:` reply;
otherwise the handler's return value is emitted by `sendFinal`. -/
def dispatchFromExec (eo : ExecOut) (room : String) : DispatchOut :=
  match eo.result with
  | Except.error e =>
    if eo.bot.hasLogger && e.isEmpty then
      { sent := [], crash := some ["tuple index out of range"], bot := eo.bot }
    else
      sendFinal eo.bot room
        (PyVal.str (String.intercalate " " ["⚠️ Error:", errorDescription e]))
  | Except.ok v => sendFinal eo.bot room v

/-- `SparkBot.command_dispatcher`, from tokenization onward. The tokenizer
(smart-quote normalization plus `shlex.split`) is the external collaborator of
the spec, so the inbound message is given as its outcome: `Except.error emsg`
when `shlex.split` raised `ValueError(emsg)`, else the token list. The
formatting-error branch replies and returns; otherwise the bot's own name is
stripped, the first token is lowered into the command name, `execute_command`
runs inside the `try`, a caught exception is logged (accessing `error.args[0]`,
which itself raises `IndexError` on an empty argument tuple when a logger is
configured) and turned into the `⚠️ Error:` reply, and the result is emitted
by the single/multi reply protocol. -/
def commandDispatcher (bot : Bot) (room : String) (tokenized : Except String (List String)) :
    DispatchOut :=
  match tokenized with
  | Except.error emsg =>
    { sent := [(room, String.intercalate " "
        ["⚠️Error: Please check the format of your command.", emsg])],
      crash := none, bot := bot }
  | Except.ok rawTokens =>
    let commandline := stripOwnName bot rawTokens
    match commandline.head? with
    | none => { sent := [], crash := some ["list index out of range"], bot := bot }
    | some t0 =>
      dispatchFromExec (executeCommand bot (pyLower t0) (stdKwargs commandline room)) room

/-- The keys of the dispatch context bag (spec §3 DispatchContext): the kwargs
supplied by `command_dispatcher` plus the `callback` entry added inside
`execute_command`. -/
def contextBagKeys : List String :=
  ["commandline", "event", "caller", "room_id", "callback"]

/-- The context bag with every entry materialized, `callback` included as the
room-bound reply closure. `bindParams` passes exactly its restriction to the
handler's declared parameters (when no unrecognized parameter is bound). -/
def fullContext (ts : List String) (room : String) : List (String × BoundVal) :=
  stdKwargs ts room ++ [("callback", BoundVal.callbackClosure (BoundVal.room room))]

/-- A handler that ignores its arguments and returns `v`. -/
def constHandler (i : Nat) (ps : List String) (v : PyVal) : Handler :=
  { id := i, params := ps, doc := none,
    behavior := HandlerBehavior.pure (fun _ => Except.ok v) }

/-- A handler that raises an exception whose argument tuple is `args`. -/
def raisingHandler (i : Nat) (args : List String) : Handler :=
  { id := i, params := [], doc := none,
    behavior := HandlerBehavior.pure (fun _ => Except.error args) }

/-- A freshly constructed bot named `Bot`, without a logger. -/
def freshBot : Bot := mkBot "Bot" false

/-- `registerCommand` outcome unwrapped: the new bot on success, the original
bot on a setup or type error (used to build concrete scenario bots). -/
def regGet (bot : Bot) (r : Except RegError Bot) : Bot :=
  match r with
  | Except.ok b => b
  | Except.error _ => bot

/-- A bot whose only registration is a fallback handler replying
`This is the fallback command`. -/
def fallbackBot : Bot :=
  regGet freshBot
    (registerCommand freshBot (RegArg.list []) true
      (constHandler 9 [] (PyVal.str "This is the fallback command")))

/-- A bot with `ping`/`ding` registered to a handler replying `pong`. -/
def pingBot : Bot :=
  regGet freshBot
    (registerCommand freshBot (RegArg.list ["ping", "ding"]) false
      (constHandler 1 [] (PyVal.str "pong")))

/-- A bot with `Ping` (upper-case P) registered to a handler replying `pong`. -/
def upperPingBot : Bot :=
  regGet freshBot
    (registerCommand freshBot (RegArg.list ["Ping"]) false
      (constHandler 1 [] (PyVal.str "pong")))

/-- A bot whose `exception` command raises
`ValueError("Whoops", "Hey, an exception")`. -/
def exceptionBot : Bot :=
  regGet freshBot
    (registerCommand freshBot (RegArg.str "exception") false
      (raisingHandler 1 ["Whoops", "Hey, an exception"]))

/-- A bot whose `exception` command raises `ValueError("Whoops")`. -/
def exceptionBotOneArg : Bot :=
  regGet freshBot
    (registerCommand freshBot (RegArg.str "exception") false
      (raisingHandler 1 ["Whoops"]))

/-- A bot with a logger whose `exception` command raises an exception with an
empty argument tuple. -/
def exceptionBotNoArgs : Bot :=
  regGet (mkBot "Bot" true)
    (registerCommand (mkBot "Bot" true) (RegArg.str "exception") false
      (raisingHandler 1 []))

/-- A bot whose `two-replies` command yields `Reply 1!` then `Reply 2!`. -/
def twoRepliesBot : Bot :=
  regGet freshBot
    (registerCommand freshBot (RegArg.str "two-replies") false
      (constHandler 1 [] (PyVal.gen ["Reply 1!", "Reply 2!"])))

/-- A bot whose `blank` command yields a single empty string. -/
def blankYieldBot : Bot :=
  regGet freshBot
    (registerCommand freshBot (RegArg.str "blank") false
      (constHandler 1 [] (PyVal.gen [""])))

/-- A bot whose `listy` command returns a list of strings (not a generator). -/
def listReturnBot : Bot :=
  regGet freshBot
    (registerCommand freshBot (RegArg.str "listy") false
      (constHandler 1 [] (PyVal.list ["a", "b"])))

/-- A handler declaring exactly `commandline` and `room_id`. -/
def twoParamHandler : Handler :=
  constHandler 3 ["commandline", "room_id"] (PyVal.str "ok")

/-- A handler declaring a single parameter `foo`, which is not in the context
bag. -/
def fooParamHandler : Handler :=
  constHandler 4 ["foo"] (PyVal.str "ok")

/-- The registration chain of the help-all scenario: `name1`/`name2` bound to
one shared handler, then `z` bound to another, on a fresh bot (which already
has `help`). -/
def helpScenarioChain : Except RegError Bot :=
  (registerCommand freshBot (RegArg.list ["name1", "name2"]) false
      (constHandler 1 [] PyVal.pynone)).bind
    (fun b => registerCommand b (RegArg.list ["z"]) false (constHandler 2 [] PyVal.pynone))

/-- The bot of the help-all scenario. -/
def helpScenarioBot : Bot :=
  regGet freshBot helpScenarioChain

/-! ## Helper lemmas -/

theorem dictGet_dictSet_self {α : Type} (d : List (String × α)) (k : String) (v : α) :
    dictGet (dictSet d k v) k = some v := by
  induction d with
  | nil => simp [dictGet, dictSet]
  | cons kv rest ih =>
    by_cases hk : kv.1 = k
    · simp [dictSet, dictGet, hk]
    · simp [dictSet, dictGet, hk, ih]

theorem dictGet_dictSet_ne {α : Type} (d : List (String × α)) (k k' : String) (v : α)
    (hne : k' ≠ k) : dictGet (dictSet d k v) k' = dictGet d k' := by
  induction d with
  | nil => simp [dictGet, dictSet, Ne.symm hne]
  | cons kv rest ih =>
    by_cases hk : kv.1 = k
    · simp [dictSet, dictGet, hk, Ne.symm hne]
    · by_cases hk' : kv.1 = k'
      · simp [dictSet, dictGet, hk, hk', hne]
      · simp [dictSet, dictGet, hk, hk', hne, ih]

theorem dictGet_foldl_dictSet {α : Type} (h : α) (names : List String) :
    ∀ (d : List (String × α)) (n : String),
      (n ∈ names ∨ dictGet d n = some h) →
      dictGet (names.foldl (fun d' m => dictSet d' m h) d) n = some h := by
  induction names with
  | nil =>
    intro d n hmem
    rcases hmem with hmem | hget
    · cases hmem
    · simpa using hget
  | cons m rest ih =>
    intro d n hmem
    simp only [List.foldl_cons]
    apply ih
    by_cases hnm : n = m
    · right
      rw [hnm]
      exact dictGet_dictSet_self d m h
    · rcases hmem with hmem | hget
      · rcases List.mem_cons.mp hmem with hcase | hcase
        · exact absurd hcase hnm
        · exact Or.inl hcase
      · right
        rw [dictGet_dictSet_ne d m n h hnm]
        exact hget

theorem sendMessage_nonempty (room s : String) (hs : s ≠ "") :
    sendMessage room s = Except.ok (room, s) := by
  unfold sendMessage
  simp [hs]

theorem errorReply_eq (d : String) :
    String.intercalate " " ["⚠️ Error:", d] = "⚠️ Error: " ++ d := by
  simp [String.intercalate]
  rfl

theorem append_error_prefix_ne_empty (d : String) : "⚠️ Error: " ++ d ≠ "" := by
  intro hcontra
  have hdata := congrArg String.data hcontra
  rw [String.data_append] at hdata
  simp at hdata

theorem sendGenerator_all_nonempty (bot : Bot) (room : String) (l : List String)
    (hne : ∀ s ∈ l, s ≠ "") :
    ∀ acc, sendGenerator bot room l acc =
      { sent := acc ++ l.map (fun s => (room, s)), crash := none, bot := bot } := by
  induction l with
  | nil => intro acc; simp [sendGenerator]
  | cons s rest ih =>
    intro acc
    have hs : s ≠ "" := hne s (List.mem_cons_self s rest)
    have hrest := ih (fun t ht => hne t (List.mem_cons_of_mem s ht)) (acc ++ [(room, s)])
    simp [sendGenerator, sendMessage_nonempty room s hs, hrest]

theorem dispatchFromExec_error (eo : ExecOut) (room : String) (e : PyExn)
    (hres : eo.result = Except.error e) (hok : e ≠ [] ∨ eo.bot.hasLogger = false) :
    dispatchFromExec eo room =
      { sent := [(room, "⚠️ Error: " ++ errorDescription e)], crash := none, bot := eo.bot } := by
  have hcond : (eo.bot.hasLogger && e.isEmpty) = false := by
    rcases hok with he | hl
    · simp [List.isEmpty_iff, he]
    · simp [hl]
  unfold dispatchFromExec
  rw [hres]
  simp only [hcond, Bool.false_eq_true, if_false, sendFinal, errorReply_eq,
    sendMessage_nonempty room _ (append_error_prefix_ne_empty (errorDescription e))]

theorem registerCommand_list_ok (bot bot' : Bot) (names : List String) (h : Handler)
    (hreg : registerCommand bot (RegArg.list names) false h = Except.ok bot') :
    bot' = { bot with commands := names.foldl (fun d n => dictSet d n h) bot.commands } := by
  by_cases hemp : names.isEmpty
  · exfalso
    simp [registerCommand, regArgFalsy, hemp] at hreg
  · by_cases hfb : bot.fallback.isSome
    · exfalso
      simp [registerCommand, regArgFalsy, regNames, hemp, hfb] at hreg
    · simp [registerCommand, regArgFalsy, regNames, hemp, hfb] at hreg
      exact hreg.symm

theorem commandDispatcher_ok_cons (bot : Bot) (room t0 : String)
    (rawTokens rest : List String) (hstrip : stripOwnName bot rawTokens = t0 :: rest) :
    commandDispatcher bot room (Except.ok rawTokens) =
      dispatchFromExec (executeCommand bot (pyLower t0) (stdKwargs (t0 :: rest) room)) room := by
  unfold commandDispatcher
  simp only [hstrip, List.head?_cons]

theorem dictHas_append {α : Type} (a b : List (String × α)) (k : String) :
    dictHas (a ++ b) k = (dictHas a k || dictHas b k) := by
  induction a with
  | nil => simp [dictHas, dictGet]
  | cons kv rest ih =>
    by_cases hk : kv.1 = k
    · simp [dictHas, dictGet, hk]
    · simpa [dictHas, dictGet, hk] using ih

theorem dictHas_eq_false_of_keys_ne {α : Type} (l : List (String × α)) (k : String)
    (hne : ∀ kv ∈ l, kv.1 ≠ k) : dictHas l k = false := by
  induction l with
  | nil => rfl
  | cons kv rest ih =>
    have h1 : kv.1 ≠ k := hne kv (List.mem_cons_self kv rest)
    have h2 : ∀ kv' ∈ rest, kv'.1 ≠ k := fun kv' hm => hne kv' (List.mem_cons_of_mem kv hm)
    have hrest : dictHas rest k = false := ih h2
    simp only [dictHas, dictGet, beq_iff_eq, h1, if_false] at hrest ⊢
    exact hrest

theorem dictSet_append_of_keys_ne {α : Type} (a : List (String × α)) (k : String)
    (v0 v : α) (b : List (String × α)) (hne : ∀ kv ∈ a, kv.1 ≠ k) :
    dictSet (a ++ (k, v0) :: b) k v = a ++ (k, v) :: b := by
  induction a with
  | nil => simp [dictSet]
  | cons kv rest ih =>
    have h1 : kv.1 ≠ k := hne kv (List.mem_cons_self kv rest)
    have h2 : ∀ kv' ∈ rest, kv'.1 ≠ k := fun kv' hm => hne kv' (List.mem_cons_of_mem kv hm)
    simp [dictSet, h1, ih h2]

theorem params_foldl_add_missing_noop (ps : List String)
    (acc : List (String × BoundVal)) (hall : ∀ p ∈ ps, dictHas acc p = true) :
    ps.foldl (fun a p => if dictHas a p then a else dictSet a p BoundVal.pynone) acc = acc := by
  induction ps with
  | nil => rfl
  | cons p rest ih =>
    have h1 : dictHas acc p = true := hall p (List.mem_cons_self p rest)
    have h2 : ∀ p' ∈ rest, dictHas acc p' = true :=
      fun p' hm => hall p' (List.mem_cons_of_mem p hm)
    simp only [List.foldl_cons, h1, if_true]
    exact ih h2

/-! ## Claim theorems -/

/-- C1: the claim says a non-fallback registration with a non-empty name list
succeeds even when a fallback handler is already set. The code contradicts it
(and the `CommandSetupError` docstring's own list of raise conditions): the
decorator body raises as soon as `self.fallback_command` is set, whatever the
`fallback` flag of the new registration is. This theorem evaluates the
registration code at that failing input: registering `ping` (fallback=False,
non-empty names) on a bot whose fallback is already set raises
`CommandSetupError` instead of binding `ping`. -/
theorem register_nonfallback_after_fallback_raises :
    registerCommand fallbackBot (RegArg.list ["ping"]) false
        (constHandler 1 [] (PyVal.str "pong")) =
      Except.error (RegError.setupError
        "Attempted to add a fallback command when one already exists.") := by
  rfl

/-- C2 (counterexample): a handler registered under the name `Ping` (with an
upper-case letter) is never resolved: the dispatcher lower-cases the user's
token but registration stored the raw name, so dispatching `Ping` falls
through to the not-found reply instead of invoking the handler (which would
have replied `pong`). -/
theorem uppercase_registered_name_unreachable :
    (commandDispatcher upperPingBot "room1" (Except.ok ["Ping"])).sent =
      [("room1", "⚠️ Error: Command not found. Maybe try 'help'?")] ∧
    (commandDispatcher upperPingBot "room1" (Except.ok ["Ping"])).sent ≠
      [("room1", "pong")] := by
  exact ⟨rfl, by decide⟩

/-- C2 (amended): for every handler registered under a non-empty list of
names, dispatching a message whose first remaining token is any of those names
that equals its own lower-casing resolves to that handler and invokes it
(names containing upper-case letters are unreachable, see the
counterexample). -/
theorem dispatch_resolves_lowercase_registered_name
    (bot bot' : Bot) (names rest : List String) (n room : String) (h : Handler)
    (hreg : registerCommand bot (RegArg.list names) false h = Except.ok bot')
    (hmem : n ∈ names) (hlow : pyLower n = n) (hname : n ≠ bot'.displayName) :
    resolveCommand bot' n = Except.ok h ∧
    commandDispatcher bot' room (Except.ok (n :: rest)) =
      dispatchFromExec (execWithHandler bot' h (stdKwargs (n :: rest) room)) room := by
  have hb := registerCommand_list_ok bot bot' names h hreg
  have hget : dictGet bot'.commands n = some h := by
    rw [hb]
    exact dictGet_foldl_dictSet h names bot.commands n (Or.inl hmem)
  have hres : resolveCommand bot' n = Except.ok h := by
    unfold resolveCommand
    rw [hget]
  refine ⟨hres, ?_⟩
  have hstrip : stripOwnName bot' (n :: rest) = n :: rest := by
    simp [stripOwnName, hname]
  rw [commandDispatcher_ok_cons bot' room n (n :: rest) rest hstrip, hlow]
  unfold executeCommand
  rw [hres]

/-- C2 (witness): `ding`, the second of the two names `ping`/`ding` registered
for one handler, resolves to that handler and its reply is delivered. -/
theorem dispatch_resolves_lowercase_registered_name_witness :
    resolveCommand pingBot "ding" = Except.ok (constHandler 1 [] (PyVal.str "pong")) ∧
    (commandDispatcher pingBot "room1" (Except.ok ["ding"])).sent = [("room1", "pong")] := by
  have h := dispatch_resolves_lowercase_registered_name freshBot pingBot
    ["ping", "ding"] [] "ding" "room1" (constHandler 1 [] (PyVal.str "pong"))
    rfl (by simp) rfl (by decide)
  refine ⟨h.1, ?_⟩
  rw [h.2]
  rfl

/-- C3 (counterexample): a message that tokenizes to exactly the bot's own
display name leaves no tokens after the name is stripped, and the dispatcher
crashes with `IndexError` at `commandline[0]` before any reply is sent —
contradicting the claim that no exception propagates and the user always
receives a reply. -/
theorem dispatcher_empty_commandline_crashes :
    (commandDispatcher freshBot "room1" (Except.ok ["Bot"])).crash =
      some ["list index out of range"] ∧
    (commandDispatcher freshBot "room1" (Except.ok ["Bot"])).sent = [] := by
  exact ⟨rfl, rfl⟩

/-- C3 (amended): the dispatcher completes without raising and the user
receives a reply, provided tokenization leaves at least one token after the
bot's name is stripped, any exception raised during execution carries at least
one positional argument when a logger is configured, and every string the
handler returns or yields is non-blank (a blank string makes the reply sink
itself raise; a handler returning a non-string non-generator value or an empty
generator completes silently, so the reply guarantee additionally assumes the
outcome is an exception, a non-blank string or a non-empty generator). The
tokenization-failure branch always replies. -/
theorem dispatcher_boundary_replies
    (bot : Bot) (room emsg t0 : String) (rawTokens rest : List String) (eo : ExecOut)
    (hstrip : stripOwnName bot rawTokens = t0 :: rest)
    (hexec : executeCommand bot (pyLower t0) (stdKwargs (t0 :: rest) room) = eo)
    (herr : ∀ e, eo.result = Except.error e → e ≠ [] ∨ eo.bot.hasLogger = false)
    (hstr : ∀ s, eo.result = Except.ok (PyVal.str s) → s ≠ "")
    (hgen : ∀ l, eo.result = Except.ok (PyVal.gen l) → ∀ s ∈ l, s ≠ "") :
    ((commandDispatcher bot room (Except.error emsg)).crash = none ∧
     (commandDispatcher bot room (Except.error emsg)).sent ≠ []) ∧
    ((commandDispatcher bot room (Except.ok rawTokens)).crash = none ∧
     ((∃ e, eo.result = Except.error e) ∨ (∃ s, eo.result = Except.ok (PyVal.str s)) ∨
        (∃ l, eo.result = Except.ok (PyVal.gen l) ∧ l ≠ []) →
       (commandDispatcher bot room (Except.ok rawTokens)).sent ≠ [])) := by
  constructor
  · exact ⟨rfl, by simp [commandDispatcher]⟩
  · rw [commandDispatcher_ok_cons bot room t0 rawTokens rest hstrip, hexec]
    match hres : eo.result with
    | Except.error e =>
      rw [dispatchFromExec_error eo room e hres (herr e hres)]
      exact ⟨rfl, fun _ => by simp⟩
    | Except.ok (PyVal.str s) =>
      have hs := hstr s hres
      have hsend : dispatchFromExec eo room =
          { sent := [(room, s)], crash := none, bot := eo.bot } := by
        unfold dispatchFromExec
        rw [hres]
        simp [sendFinal, sendMessage_nonempty room s hs]
      rw [hsend]
      exact ⟨rfl, fun _ => by simp⟩
    | Except.ok (PyVal.gen l) =>
      have hl := hgen l hres
      have hsend : dispatchFromExec eo room =
          { sent := l.map (fun s => (room, s)), crash := none, bot := eo.bot } := by
        unfold dispatchFromExec
        rw [hres]
        simp [sendFinal, sendGenerator_all_nonempty eo.bot room l hl []]
      rw [hsend]
      refine ⟨rfl, fun hcase => ?_⟩
      rcases hcase with ⟨e, he⟩ | ⟨s', hs'⟩ | ⟨l', hl', hne⟩
      · cases he
      · cases hs'
      · cases hl'
        simpa using hne
    | Except.ok (PyVal.list l) =>
      have hsend : dispatchFromExec eo room =
          { sent := [], crash := none, bot := eo.bot } := by
        unfold dispatchFromExec
        rw [hres]
        simp [sendFinal]
      rw [hsend]
      refine ⟨rfl, fun hcase => ?_⟩
      rcases hcase with ⟨e, he⟩ | ⟨s', hs'⟩ | ⟨l', hl', _⟩
      · cases he
      · cases hs'
      · cases hl'
    | Except.ok PyVal.pynone =>
      have hsend : dispatchFromExec eo room =
          { sent := [], crash := none, bot := eo.bot } := by
        unfold dispatchFromExec
        rw [hres]
        simp [sendFinal]
      rw [hsend]
      refine ⟨rfl, fun hcase => ?_⟩
      rcases hcase with ⟨e, he⟩ | ⟨s', hs'⟩ | ⟨l', hl', _⟩
      · cases he
      · cases hs'
      · cases hl'

/-- C3 (witness): with the `exception` command raising
`ValueError("Whoops", "Hey, an exception")`, the dispatcher neither crashes on
the command nor on a tokenization failure, and both paths reply. -/
theorem dispatcher_boundary_replies_witness :
    (commandDispatcher exceptionBot "room1" (Except.ok ["exception"])).crash = none ∧
    (commandDispatcher exceptionBot "room1" (Except.ok ["exception"])).sent ≠ [] ∧
    (commandDispatcher exceptionBot "room1" (Except.error "No closing quotation")).sent ≠ [] := by
  have hres : (executeCommand exceptionBot (pyLower "exception")
      (stdKwargs ["exception"] "room1")).result =
      Except.error ["Whoops", "Hey, an exception"] := rfl
  have h := dispatcher_boundary_replies exceptionBot "room1" "No closing quotation"
    "exception" ["exception"] []
    (executeCommand exceptionBot (pyLower "exception") (stdKwargs ["exception"] "room1"))
    rfl rfl
    (fun e he => by rw [hres] at he; cases he; exact Or.inl (by decide))
    (fun s hs => by rw [hres] at hs; cases hs)
    (fun l hl => by rw [hres] at hl; cases hl)
  exact ⟨h.2.1, h.2.2 (Or.inl ⟨["Whoops", "Hey, an exception"], hres⟩), h.1.2⟩

/-- C4 (counterexample): with a logger configured, a handler raising an
exception whose argument tuple is empty produces no reply at all: the logging
line `error.args[0]` inside the `except` block raises `IndexError`, which
escapes the dispatcher — contradicting the claim that every raising handler
yields exactly one `⚠️ Error:` reply. -/
theorem dispatcher_emptyargs_logger_no_reply :
    (commandDispatcher exceptionBotNoArgs "room1" (Except.ok ["exception"])).sent = [] ∧
    (commandDispatcher exceptionBotNoArgs "room1" (Except.ok ["exception"])).crash =
      some ["tuple index out of range"] := by
  exact ⟨rfl, rfl⟩

/-- C4 (amended): for every handler that raises an exception carrying at least
one positional argument (or when no logger is configured), the user receives
exactly one reply `"⚠️ Error: " ++ d`, where `d` is the exception's second
positional argument if present and otherwise the generic internal-error
string (`errorDescription`). -/
theorem dispatcher_handler_error_reply
    (bot bot2 : Bot) (room t0 : String) (rawTokens rest : List String) (e : PyExn)
    (hstrip : stripOwnName bot rawTokens = t0 :: rest)
    (hexec : executeCommand bot (pyLower t0) (stdKwargs (t0 :: rest) room) =
      { result := Except.error e, bot := bot2 })
    (hargs : e ≠ [] ∨ bot2.hasLogger = false) :
    commandDispatcher bot room (Except.ok rawTokens) =
      { sent := [(room, "⚠️ Error: " ++ errorDescription e)], crash := none, bot := bot2 } := by
  rw [commandDispatcher_ok_cons bot room t0 rawTokens rest hstrip, hexec]
  exact dispatchFromExec_error _ room e rfl (by simpa using hargs)

/-- C4 (witness): `ValueError("Whoops", "Hey, an exception")` yields exactly
`⚠️ Error: Hey, an exception`; `ValueError("Whoops")` yields exactly the
generic internal-error reply. -/
theorem dispatcher_handler_error_reply_witness :
    (commandDispatcher exceptionBot "room1" (Except.ok ["exception"])).sent =
      [("room1", "⚠️ Error: Hey, an exception")] ∧
    (commandDispatcher exceptionBotOneArg "room1" (Except.ok ["exception"])).sent =
      [("room1", "⚠️ Error: Something happened internally. For more information, contact the bot author.")] := by
  constructor
  · rw [dispatcher_handler_error_reply exceptionBot exceptionBot "room1" "exception"
      ["exception"] [] ["Whoops", "Hey, an exception"] rfl rfl (Or.inl (by decide))]
    rfl
  · rw [dispatcher_handler_error_reply exceptionBotOneArg exceptionBotOneArg "room1"
      "exception" ["exception"] [] ["Whoops"] rfl rfl (Or.inl (by decide))]
    rfl

/-- C5: for a command name absent from the registry, resolution raises
`CommandNotFound` carrying the configured not-found message when no fallback
is set — the dispatcher then delivers that message to the user as the reply's
description — and resolves to the fallback handler, whose invocation result
becomes the dispatch result, when one is set. -/
theorem dispatch_missing_command_resolution
    (bot : Bot) (room t0 : String) (rawTokens rest : List String)
    (hstrip : stripOwnName bot rawTokens = t0 :: rest)
    (hmiss : dictGet bot.commands (pyLower t0) = none) :
    (bot.fallback = none →
      resolveCommand bot (pyLower t0) =
        Except.error ["No command found", bot.commandNotFoundMessage] ∧
      commandDispatcher bot room (Except.ok rawTokens) =
        { sent := [(room, "⚠️ Error: " ++ bot.commandNotFoundMessage)],
          crash := none, bot := bot }) ∧
    (∀ f, bot.fallback = some f →
      resolveCommand bot (pyLower t0) = Except.ok f ∧
      commandDispatcher bot room (Except.ok rawTokens) =
        dispatchFromExec (execWithHandler bot f (stdKwargs (t0 :: rest) room)) room) := by
  constructor
  · intro hfb
    have hres : resolveCommand bot (pyLower t0) =
        Except.error ["No command found", bot.commandNotFoundMessage] := by
      unfold resolveCommand
      rw [hmiss, hfb]
    refine ⟨hres, ?_⟩
    rw [commandDispatcher_ok_cons bot room t0 rawTokens rest hstrip]
    unfold executeCommand
    rw [hres]
    exact dispatchFromExec_error
      { result := Except.error ["No command found", bot.commandNotFoundMessage], bot := bot }
      room ["No command found", bot.commandNotFoundMessage] rfl (Or.inl (by simp))
  · intro f hfb
    have hres : resolveCommand bot (pyLower t0) = Except.ok f := by
      unfold resolveCommand
      rw [hmiss, hfb]
    refine ⟨hres, ?_⟩
    rw [commandDispatcher_ok_cons bot room t0 rawTokens rest hstrip]
    unfold executeCommand
    rw [hres]

/-- C5 (witness): `missing-command` on a fresh bot replies with the configured
not-found message; on a bot with a fallback it replies with the fallback's
result instead. -/
theorem dispatch_missing_command_resolution_witness :
    (commandDispatcher freshBot "room1" (Except.ok ["missing-command"])).sent =
      [("room1", "⚠️ Error: Command not found. Maybe try 'help'?")] ∧
    (commandDispatcher fallbackBot "room1" (Except.ok ["missing-command"])).sent =
      [("room1", "This is the fallback command")] := by
  constructor
  · have h := (dispatch_missing_command_resolution freshBot "room1" "missing-command"
      ["missing-command"] [] rfl rfl).1 rfl
    rw [h.2]
    rfl
  · have h := (dispatch_missing_command_resolution fallbackBot "room1" "missing-command"
      ["missing-command"] [] rfl rfl).2
      (constHandler 9 [] (PyVal.str "This is the fallback command")) rfl
    rw [h.2]
    rfl

/-- C6 (counterexample): a handler yielding a single blank string (`N = 1`)
does not cause one reply-sink delivery: the sink rejects the blank message,
zero messages are delivered and the `ValueError` escapes the dispatcher —
contradicting the claim for sequences counted over arbitrary strings. -/
theorem blank_generator_element_breaks_reply_count :
    (commandDispatcher blankYieldBot "room1" (Except.ok ["blank"])).sent = [] ∧
    (commandDispatcher blankYieldBot "room1" (Except.ok ["blank"])).crash =
      some ["response must be a non-blank string."] := by
  exact ⟨rfl, rfl⟩

/-- C6 (amended): a handler returning a generator of N non-blank strings
causes exactly N reply-sink deliveries, one per produced element, in
production order, all to the same room; a handler returning a single
non-blank string causes exactly one delivery. -/
theorem dispatcher_reply_protocol
    (bot : Bot) (room t0 : String) (rawTokens rest : List String) (eo : ExecOut)
    (hstrip : stripOwnName bot rawTokens = t0 :: rest)
    (hexec : executeCommand bot (pyLower t0) (stdKwargs (t0 :: rest) room) = eo) :
    (∀ l, eo.result = Except.ok (PyVal.gen l) → (∀ s ∈ l, s ≠ "") →
      commandDispatcher bot room (Except.ok rawTokens) =
        { sent := l.map (fun s => (room, s)), crash := none, bot := eo.bot }) ∧
    (∀ s, eo.result = Except.ok (PyVal.str s) → s ≠ "" →
      commandDispatcher bot room (Except.ok rawTokens) =
        { sent := [(room, s)], crash := none, bot := eo.bot }) := by
  rw [commandDispatcher_ok_cons bot room t0 rawTokens rest hstrip, hexec]
  constructor
  · intro l hres hne
    unfold dispatchFromExec
    rw [hres]
    simp [sendFinal, sendGenerator_all_nonempty eo.bot room l hne []]
  · intro s hres hne
    unfold dispatchFromExec
    rw [hres]
    simp [sendFinal, sendMessage_nonempty room s hne]

/-- C6 (witness): the `two-replies` handler yielding `Reply 1!` then
`Reply 2!` delivers exactly those two messages in that order to the room, and
the `ping` handler returning one string delivers exactly one message. -/
theorem dispatcher_reply_protocol_witness :
    commandDispatcher twoRepliesBot "room1" (Except.ok ["two-replies"]) =
      { sent := [("room1", "Reply 1!"), ("room1", "Reply 2!")], crash := none,
        bot := twoRepliesBot } ∧
    commandDispatcher pingBot "room1" (Except.ok ["ping"]) =
      { sent := [("room1", "pong")], crash := none, bot := pingBot } := by
  constructor
  · have h := (dispatcher_reply_protocol twoRepliesBot "room1" "two-replies"
      ["two-replies"] []
      (executeCommand twoRepliesBot (pyLower "two-replies")
        (stdKwargs ["two-replies"] "room1")) rfl rfl).1
      ["Reply 1!", "Reply 2!"] rfl (by decide)
    rw [h]
    rfl
  · have h := (dispatcher_reply_protocol pingBot "room1" "ping" ["ping"] []
      (executeCommand pingBot (pyLower "ping") (stdKwargs ["ping"] "room1")) rfl rfl).2
      "pong" rfl (by decide)
    rw [h]
    rfl

/-- C7 (counterexample): with a logger configured, a handler declaring the
parameter `foo` — which is not in the context bag — is passed `foo` bound to
`None` (the binder adds the unrecognized name to the bag inside the logger
branch), so the passed keyword set is not the declared set intersected with
the bag. -/
theorem binder_unknown_param_passed_with_logger :
    bindParams (mkBot "Bot" true) fooParamHandler (stdKwargs ["x"] "room1") =
      Except.ok [("foo", BoundVal.pynone)] ∧
    contextBagKeys.contains "foo" = false := by
  exact ⟨rfl, rfl⟩

/-- C7 (amended): when no logger is configured — or whenever every declared
parameter is a context-bag key — the binder passes exactly the declared
parameters intersected with the context bag `{commandline, event, caller,
room_id, callback}`, with their context values; in particular the room-bound
`callback` closure appears in the passed set exactly when the handler declares
`callback`. (With a logger, unrecognized declared names are additionally
bound to `None`, see the counterexample.) -/
theorem bindParams_exact
    (bot : Bot) (h : Handler) (ts : List String) (room : String)
    (hok : bot.hasLogger = false ∨ ∀ p ∈ h.params, contextBagKeys.contains p = true) :
    bindParams bot h (stdKwargs ts room) =
      Except.ok ((fullContext ts room).filter (fun kv => h.params.contains kv.1)) := by
  have hposs : dictSet (stdKwargs ts room) "callback" BoundVal.pynone =
      stdKwargs ts room ++ [("callback", BoundVal.pynone)] := by
    simp [stdKwargs, dictSet]
  have hbag : ∀ p, contextBagKeys.contains p = true →
      dictHas (stdKwargs ts room ++ [("callback", BoundVal.pynone)]) p = true := by
    intro p hp
    have hmem : p ∈ contextBagKeys := List.mem_of_elem_eq_true hp
    simp only [contextBagKeys, List.mem_cons, List.mem_singleton] at hmem
    rcases hmem with rfl | rfl | rfl | rfl | rfl | hfalse
    · rfl
    · rfl
    · rfl
    · rfl
    · rfl
    · cases hfalse
  have hnoadd : (if bot.hasLogger then
      h.params.foldl
        (fun acc p => if dictHas acc p then acc else dictSet acc p BoundVal.pynone)
        (stdKwargs ts room ++ [("callback", BoundVal.pynone)])
      else stdKwargs ts room ++ [("callback", BoundVal.pynone)]) =
      stdKwargs ts room ++ [("callback", BoundVal.pynone)] := by
    rcases hok with hlog | hall
    · rw [hlog]
      simp
    · cases hl : bot.hasLogger
      · simp
      · simp only [if_true]
        exact params_foldl_add_missing_noop h.params _
          (fun p hp => hbag p (hall p hp))
  have hkeys : ∀ kv ∈ (stdKwargs ts room).filter
      (fun kv => h.params.contains kv.1), kv.1 ≠ "callback" := by
    intro kv hkv
    have hmem : kv ∈ stdKwargs ts room := (List.mem_filter.mp hkv).1
    simp only [stdKwargs, List.mem_cons, List.mem_singleton] at hmem
    rcases hmem with rfl | rfl | rfl | rfl | hfalse
    · exact (by decide : ("commandline" : String) ≠ "callback")
    · exact (by decide : ("event" : String) ≠ "callback")
    · exact (by decide : ("caller" : String) ≠ "callback")
    · exact (by decide : ("room_id" : String) ≠ "callback")
    · cases hfalse
  cases hcb : h.params.contains "callback" with
  | true =>
    have hmemcb : "callback" ∈ h.params := List.mem_of_elem_eq_true hcb
    have hfilcb : List.filter (fun kv => h.params.contains kv.1)
        [("callback", BoundVal.pynone)] = [("callback", BoundVal.pynone)] := by
      simp [hmemcb]
    have hfilcb' : List.filter (fun kv => h.params.contains kv.1)
        [("callback", BoundVal.callbackClosure (BoundVal.room room))] =
        [("callback", BoundVal.callbackClosure (BoundVal.room room))] := by
      simp [hmemcb]
    have hhas : dictHas (List.filter (fun kv => h.params.contains kv.1)
        (stdKwargs ts room) ++ [("callback", BoundVal.pynone)]) "callback" = true := by
      rw [dictHas_append]
      simp [dictHas, dictGet]
    have hroom : dictGet (stdKwargs ts room) "room_id" = some (BoundVal.room room) := rfl
    have hset := dictSet_append_of_keys_ne
      (List.filter (fun kv => h.params.contains kv.1) (stdKwargs ts room)) "callback"
      BoundVal.pynone (BoundVal.callbackClosure (BoundVal.room room)) [] hkeys
    unfold bindParams fullContext
    simp only [hposs, hnoadd, List.filter_append, hfilcb, hfilcb', hhas,
      eq_self_iff_true, if_true, hroom, hset]
  | false =>
    have hnotcb : "callback" ∉ h.params := by
      intro hm
      have hme : h.params.contains "callback" = true := List.elem_eq_true_of_mem hm
      rw [hme] at hcb
      cases hcb
    have hfilcb : List.filter (fun kv => h.params.contains kv.1)
        [("callback", BoundVal.pynone)] = [] := by
      simp [hnotcb]
    have hfilcb' : List.filter (fun kv => h.params.contains kv.1)
        [("callback", BoundVal.callbackClosure (BoundVal.room room))] = [] := by
      simp [hnotcb]
    have hhas : dictHas (List.filter (fun kv => h.params.contains kv.1)
        (stdKwargs ts room)) "callback" = false :=
      dictHas_eq_false_of_keys_ne _ "callback" hkeys
    unfold bindParams fullContext
    simp only [hposs, hnoadd, List.filter_append, hfilcb, hfilcb', List.append_nil, hhas,
      Bool.false_eq_true, if_false]

/-- C7 (witness): a handler declaring `{commandline, room_id}` is passed
exactly those two context values, with no callback closure constructed; a
handler declaring `{callback}` is passed exactly the room-bound closure. -/
theorem bindParams_exact_witness :
    bindParams freshBot twoParamHandler (stdKwargs ["a", "b"] "room9") =
      Except.ok [("commandline", BoundVal.tokens ["a", "b"]),
                 ("room_id", BoundVal.room "room9")] ∧
    bindParams freshBot (constHandler 5 ["callback"] (PyVal.str "ok"))
        (stdKwargs ["a"] "room9") =
      Except.ok [("callback", BoundVal.callbackClosure (BoundVal.room "room9"))] := by
  constructor
  · rw [bindParams_exact freshBot twoParamHandler ["a", "b"] "room9" (Or.inl rfl)]
    rfl
  · rw [bindParams_exact freshBot (constHandler 5 ["callback"] (PyVal.str "ok"))
      ["a"] "room9" (Or.inl rfl)]
    rfl

/-- C8: with exactly `help`, `name1`/`name2` (one shared handler) and `z`
registered, the first call to `my_help_all` computes exactly the claimed
grouped, sorted string, and a second call (on the bot holding the now-written
cache) returns the identical string. -/
theorem help_all_grouping_and_cache :
    helpScenarioChain = Except.ok helpScenarioBot ∧
    (myHelpAll helpScenarioBot).1 =
      "Type `help [command]` for more specific help about any of these commands:\n - help\n - name1, name2\n - z" ∧
    (myHelpAll (myHelpAll helpScenarioBot).2).1 = (myHelpAll helpScenarioBot).1 := by
  exact ⟨rfl, rfl, rfl⟩

/-- C9: the help operation never raises and returns by case: no second token
or a second token lowering to `all` gives the help-all result; a registered
name with a docstring gives the dedented docstring; a registered name without
one gives the fixed `no help available` message; an unknown name gives the
`no command with that name` message containing the literal queried name. (The
Python `IndexError`/`KeyError`/`TypeError` paths are all caught in `my_help`,
which the embedding reflects by being total.) -/
theorem my_help_cases (bot : Bot) (cl : List String) :
    (cl.get? 1 = none → myHelp bot cl = myHelpAll bot) ∧
    (∀ t, cl.get? 1 = some t → pyLower t = "all" → myHelp bot cl = myHelpAll bot) ∧
    (∀ t h d, cl.get? 1 = some t → pyLower t ≠ "all" →
      dictGet bot.commands t = some h → h.doc = some d →
      myHelp bot cl = (dedent d, bot)) ∧
    (∀ t h, cl.get? 1 = some t → pyLower t ≠ "all" →
      dictGet bot.commands t = some h → h.doc = none →
      myHelp bot cl = ("There is no help available for `" ++ t ++ "`.", bot)) ∧
    (∀ t, cl.get? 1 = some t → pyLower t ≠ "all" → dictGet bot.commands t = none →
      myHelp bot cl = ("I don't have a command with the name \"" ++ t ++ "\".", bot)) := by
  refine ⟨?_, ?_, ?_, ?_, ?_⟩
  · intro hnone
    unfold myHelp
    rw [hnone]
  · intro t hsome hall
    unfold myHelp
    rw [hsome]
    simp [hall]
  · intro t h d hsome hall hget hdoc
    unfold myHelp
    rw [hsome]
    simp [hall, hget, hdoc]
  · intro t h hsome hall hget hdoc
    unfold myHelp
    rw [hsome]
    simp [hall, hget, hdoc]
  · intro t hsome hall hget
    unfold myHelp
    rw [hsome]
    simp [hall, hget]

/-- C9 (witness): `help missing` names the literal queried command in the
not-found message; `help` with no second token and `help ALL` both give the
help-all result; `help help` returns the dedented help docstring. -/
theorem my_help_cases_witness :
    myHelp freshBot ["help", "missing"] =
      ("I don't have a command with the name \"missing\".", freshBot) ∧
    myHelp freshBot ["help"] = myHelpAll freshBot ∧
    myHelp freshBot ["help", "ALL"] = myHelpAll freshBot ∧
    myHelp freshBot ["help", "help"] = (dedent myHelpDoc, freshBot) := by
  refine ⟨?_, ?_, ?_, ?_⟩
  · exact (my_help_cases freshBot ["help", "missing"]).2.2.2.2 "missing" rfl
      (by decide) rfl
  · exact (my_help_cases freshBot ["help"]).1 rfl
  · exact (my_help_cases freshBot ["help", "ALL"]).2.1 "ALL" rfl rfl
  · exact (my_help_cases freshBot ["help", "help"]).2.2.1 "help" helpHandler myHelpDoc
      rfl (by decide) rfl rfl

/-- C10: a handler whose return value is neither a string nor a generator
(a list of strings, or `None`) causes zero reply-sink deliveries and no error:
the dispatcher's emission step silently ignores such values. -/
theorem dispatcher_silent_on_other_return
    (bot : Bot) (room t0 : String) (rawTokens rest : List String) (eo : ExecOut)
    (hstrip : stripOwnName bot rawTokens = t0 :: rest)
    (hexec : executeCommand bot (pyLower t0) (stdKwargs (t0 :: rest) room) = eo)
    (hother : (∃ l, eo.result = Except.ok (PyVal.list l)) ∨
      eo.result = Except.ok PyVal.pynone) :
    commandDispatcher bot room (Except.ok rawTokens) =
      { sent := [], crash := none, bot := eo.bot } := by
  rw [commandDispatcher_ok_cons bot room t0 rawTokens rest hstrip, hexec]
  rcases hother with ⟨l, hres⟩ | hres
  · unfold dispatchFromExec
    rw [hres]
    simp [sendFinal]
  · unfold dispatchFromExec
    rw [hres]
    simp [sendFinal]

/-- C10 (witness): the `listy` handler returning `["a", "b"]` (a list, not a
generator) produces no reply and no crash. -/
theorem dispatcher_silent_on_other_return_witness :
    commandDispatcher listReturnBot "room1" (Except.ok ["listy"]) =
      { sent := [], crash := none, bot := listReturnBot } := by
  exact dispatcher_silent_on_other_return listReturnBot "room1" "listy" ["listy"] []
    (executeCommand listReturnBot (pyLower "listy") (stdKwargs ["listy"] "room1"))
    rfl rfl (Or.inl ⟨["a", "b"], rfl⟩)

end SparkBot
